import Mathlib

/-!
Verification development for the cluster lifecycle driver
(magnum_cluster_api/driver.py, class BaseDriver).

The driver's operations are embedded shallowly:

* Python strings become lists of characters (Str), so that the string
  manipulation in the source (status.split, f-string concatenation) is
  modelled exactly.
* The external world (the Cluster-API objects read by the driver, and the
  outcome of the keystone application-credential find/delete) is an input
  record; all side effects (resource applies/deletes, credential
  issue/revoke, saves) are recorded in an event trace.
* Python exceptions (KeyError from a missing dict key, keystone errors
  other than NotFound) become the error side of Except.
-/

namespace MagnumClusterApi

/-- Python strings, modelled as lists of characters. -/
abbrev Str : Type := List Char

/-- objects.fields.ClusterStatus.CREATE_IN_PROGRESS -/
def sCREATE_IN_PROGRESS : Str := "CREATE_IN_PROGRESS".toList

/-- objects.fields.ClusterStatus.CREATE_COMPLETE -/
def sCREATE_COMPLETE : Str := "CREATE_COMPLETE".toList

/-- objects.fields.ClusterStatus.UPDATE_IN_PROGRESS -/
def sUPDATE_IN_PROGRESS : Str := "UPDATE_IN_PROGRESS".toList

/-- objects.fields.ClusterStatus.UPDATE_COMPLETE -/
def sUPDATE_COMPLETE : Str := "UPDATE_COMPLETE".toList

/-- objects.fields.ClusterStatus.DELETE_IN_PROGRESS -/
def sDELETE_IN_PROGRESS : Str := "DELETE_IN_PROGRESS".toList

/-- objects.fields.ClusterStatus.DELETE_COMPLETE -/
def sDELETE_COMPLETE : Str := "DELETE_COMPLETE".toList

/-- the role string distinguishing control-plane node groups -/
def sMaster : Str := "master".toList

/-- the network_driver value that triggers the Calico resources -/
def sCalico : Str := "calico".toList

/-- the condition type consulted by the readiness gate -/
def sControlPlaneReady : Str := "ControlPlaneReady".toList

/-- the condition status that passes the readiness gate -/
def sTrue : Str := "True".toList

/-- suffix appended in f-string interpolation of the IN_PROGRESS phase -/
def sufIN_PROGRESS : Str := "_IN_PROGRESS".toList

/-- suffix appended in f-string interpolation of the COMPLETE phase -/
def sufCOMPLETE : Str := "_COMPLETE".toList

/-- suffix appended in f-string interpolation of the FAILED phase -/
def sufFAILED : Str := "_FAILED".toList

/-- MachineDeployment phase value ScalingUp -/
def sScalingUp : Str := "ScalingUp".toList

/-- MachineDeployment phase value ScalingDown -/
def sScalingDown : Str := "ScalingDown".toList

/-- MachineDeployment phase value Running -/
def sRunning : Str := "Running".toList

/-- MachineDeployment phase value Failed -/
def sFailed : Str := "Failed".toList

/-- MachineDeployment phase value Unknown -/
def sUnknown : Str := "Unknown".toList

/-- the dictionary key whose absence raises KeyError in the worker branch -/
def sPhase : Str := "phase".toList

/-- actionOf models nodegroup.status.split with separator underscore, index 0:
the characters before the first underscore (the whole string when no
underscore occurs). -/
def actionOf (s : Str) : Str := s.takeWhile fun c => c != '_'

/-- a magnum NodeGroup record, as touched by the driver -/
structure NodeGroup where
  name : Str
  role : Str
  status : Str
  status_reason : Option Str
deriving DecidableEq

/-- a magnum ClusterTemplate record, as touched by the driver -/
structure ClusterTemplate where
  network_driver : Str
deriving DecidableEq

/-- a magnum Cluster record, as touched by the driver -/
structure Cluster where
  status : Str
  api_address : Option Str
  coe_version : Option Str
  nodegroups : List NodeGroup
  cluster_template : ClusterTemplate
deriving DecidableEq

/-- observed state of the top-level Cluster-API Cluster object:
existing models capi_cluster.exists, conditions models
obj status conditions (a list of records with a type and a status field),
host and port model obj spec controlPlaneEndpoint. -/
structure CapiCluster where
  existing : Bool
  conditions : List (Str × Str)
  host : Str
  port : Str
deriving DecidableEq

/-- observed status of a KubeadmControlPlane object: ready is Option Bool
because the source reads it with a get and a False default, failureMessage
is Option because the source reads it with a get and a None default,
version models obj status version. -/
structure KubeadmControlPlaneStatus where
  ready : Option Bool
  failureMessage : Option Str
  version : Str
deriving DecidableEq

/-- observed status of a MachineDeployment object: phase is Option because
the source indexes obj status with the phase key directly, so an absent key
raises KeyError. -/
structure MachineDeploymentStatus where
  phase : Option Str
deriving DecidableEq

/-- outcome of the keystone application_credentials find-then-delete pair
(the source wraps both in one try/except NotFound). -/
inductive CredDeleteOutcome where
  | found
  | notFound
  | failed
deriving DecidableEq

/-- Python exceptions that escape the driver in the modelled paths -/
inductive PyErr where
  | keyError (k : Str)
  | keystoneError
deriving DecidableEq

/-- the external world read by one driver invocation; KubeadmControlPlane
and MachineDeployment objects are keyed by node-group name. -/
structure World where
  capi : CapiCluster
  kcp : Str → KubeadmControlPlaneStatus
  md : Str → MachineDeploymentStatus
  credFindDelete : CredDeleteOutcome

/-- the externally visible effects recorded by the embedding, one
constructor per apply/delete/save/credential call in the source. -/
inductive Event where
  | applyNamespace
  | applyCCMConfigMap
  | applyCCMClusterResourceSet
  | applyCalicoConfigMap
  | applyCalicoClusterResourceSet
  | createCredential
  | applyCloudConfigSecret
  | applyApiCA
  | applyEtcdCA
  | applyFrontProxyCA
  | applyServiceAccountCA
  | applyOSMachineTemplate (ng : NodeGroup)
  | applyKubeadmControlPlane (ng : NodeGroup)
  | applyKubeadmConfigTemplate
  | applyMachineDeployment (ng : NodeGroup)
  | applyOpenStackCluster
  | applyCluster
  | deleteCredential
  | deleteCloudConfigSecret
  | deleteApiCA
  | deleteEtcdCA
  | deleteFrontProxyCA
  | deleteServiceAccountCA
  | deleteCluster
  | deleteOpenStackCluster
  | deleteKubeadmControlPlane (ng : NodeGroup)
  | deleteMachineDeployment (ng : NodeGroup)
  | deleteKubeadmConfigTemplate
  | deleteOSMachineTemplate (ng : NodeGroup)
  | deleteNamespace
  | deleteCCMConfigMap
  | deleteCCMClusterResourceSet
  | deleteCalicoConfigMap
  | deleteCalicoClusterResourceSet
  | saveCluster
  | saveNodeGroup (ng : NodeGroup)
deriving DecidableEq

/-- BaseDriver.create_nodegroup: apply the OpenStackMachineTemplate, then
the KubeadmControlPlane for a master group, or the KubeadmConfigTemplate
and MachineDeployment for a worker group. -/
def create_nodegroup (ng : NodeGroup) : List Event :=
  [.applyOSMachineTemplate ng] ++
    (if ng.role = sMaster then [.applyKubeadmControlPlane ng]
     else [.applyKubeadmConfigTemplate, .applyMachineDeployment ng])

/-- BaseDriver.create_cluster: namespace, cloud-controller-manager
resources, the Calico resources when the network driver is calico,
credential issue, cloud-config secret, the four certificate-authority
secrets, per-node-group provisioning, then the OpenStackCluster and the
top-level Cluster object. -/
def create_cluster (c : Cluster) : List Event :=
  [.applyNamespace, .applyCCMConfigMap, .applyCCMClusterResourceSet] ++
    (if c.cluster_template.network_driver = sCalico then
      [.applyCalicoConfigMap, .applyCalicoClusterResourceSet]
     else []) ++
    [.createCredential, .applyCloudConfigSecret,
     .applyApiCA, .applyEtcdCA, .applyFrontProxyCA, .applyServiceAccountCA] ++
    c.nodegroups.flatMap create_nodegroup ++
    [.applyOpenStackCluster, .applyCluster]

/-- BaseDriver.delete_nodegroup: the KubeadmControlPlane for a master
group, or the MachineDeployment then KubeadmConfigTemplate for a worker
group; the OpenStackMachineTemplate last, role-independent. -/
def delete_nodegroup (ng : NodeGroup) : List Event :=
  (if ng.role = sMaster then [.deleteKubeadmControlPlane ng]
   else [.deleteMachineDeployment ng, .deleteKubeadmConfigTemplate]) ++
    [.deleteOSMachineTemplate ng]

/-- BaseDriver.delete_cluster: delete the top-level Cluster object and the
OpenStackCluster object, then tear down each node group. -/
def delete_cluster (c : Cluster) : List Event :=
  [.deleteCluster, .deleteOpenStackCluster] ++
    c.nodegroups.flatMap delete_nodegroup

/-- BaseDriver.update_nodegroup_status: derive the action prefix from the
current status; on the master branch read ready (get with False default)
and failureMessage (get with None default) from the KubeadmControlPlane,
set status to action_COMPLETE only when ready, and always copy the failure
message into status_reason; on the worker branch index the phase key of
the MachineDeployment status (KeyError when absent) and map it through the
if/elif chain, leaving status unchanged on an unrecognized value.
The node group is saved and returned. -/
def update_nodegroup_status (w : World) (ng : NodeGroup) :
    Except PyErr (NodeGroup × List Event) :=
  let act := actionOf ng.status
  if ng.role = sMaster then
    let kcp := w.kcp ng.name
    let ready := kcp.ready.getD false
    let ng1 := if ready then { ng with status := act ++ sufCOMPLETE } else ng
    let ng2 := { ng1 with status_reason := kcp.failureMessage }
    .ok (ng2, [.saveNodeGroup ng2])
  else
    match (w.md ng.name).phase with
    | none => .error (.keyError sPhase)
    | some phase =>
      let ng1 :=
        if phase = sScalingUp ∨ phase = sScalingDown then
          { ng with status := act ++ sufIN_PROGRESS }
        else if phase = sRunning then
          { ng with status := act ++ sufCOMPLETE }
        else if phase = sFailed ∨ phase = sUnknown then
          { ng with status := act ++ sufFAILED }
        else ng
      .ok (ng1, [.saveNodeGroup ng1])

/-- insertion into the Python dict built by the comprehension in
update_cluster_status: a later entry with an already present key
overwrites the value in place. -/
def dictInsert (m : List (Str × Str)) (t v : Str) : List (Str × Str) :=
  match m with
  | [] => [(t, v)]
  | (k0, v0) :: rest =>
    if k0 = t then (k0, v) :: rest else (k0, v0) :: dictInsert rest t v

/-- dict lookup (dict.get, returning None when the key is absent) -/
def dictGet (m : List (Str × Str)) (k : Str) : Option Str :=
  match m with
  | [] => none
  | (k0, v0) :: rest => if k0 = k then some v0 else dictGet rest k

/-- the condition map built in update_cluster_status from the type and
status fields of the conditions list, in list order. -/
def status_map (conds : List (Str × Str)) : List (Str × Str) :=
  conds.foldl (fun m c => dictInsert m c.1 c.2) []

/-- the f-string https address built from the controlPlaneEndpoint -/
def api_address_of (host port : Str) : Str :=
  "https://".toList ++ host ++ ':' :: port

/-- the for loop over cluster.nodegroups in update_cluster_status: poll
each node group; stop as soon as one polls to something other than the
literal CREATE_COMPLETE (the source compares against
ClusterStatus.CREATE_COMPLETE, not against the action of the group);
after a master group passes the check, overwrite the coe version from its
KubeadmControlPlane. Returns whether the loop ran to completion, the
node-group list with the groups processed so far updated, the final coe
version, and the trace. -/
def poll_loop (w : World) :
    Option Str → List NodeGroup →
      Except PyErr (Bool × List NodeGroup × Option Str × List Event)
  | cv, [] => .ok (true, [], cv, [])
  | cv, ng :: rest =>
    match update_nodegroup_status w ng with
    | .error e => .error e
    | .ok (ng1, ev) =>
      if ng1.status ≠ sCREATE_COMPLETE then
        .ok (false, ng1 :: rest, cv, ev)
      else
        let cv1 := if ng1.role = sMaster then some (w.kcp ng1.name).version else cv
        match poll_loop w cv1 rest with
        | .error e => .error e
        | .ok (done, ngs, cvOut, tr) => .ok (done, ng1 :: ngs, cvOut, ev ++ tr)

/-- outcome of the create/update block of update_cluster_status: ret means
the Python method executed a return statement (the delete block below it
is skipped); fall means control fell through to the delete block. -/
inductive BlockOut where
  | ret (c : Cluster) (tr : List Event)
  | fall (c : Cluster) (tr : List Event)

/-- the first block of BaseDriver.update_cluster_status (the branch for
CREATE_IN_PROGRESS and UPDATE_IN_PROGRESS): build the condition map and
return when ControlPlaneReady is not the string True; set api_address from
the controlPlaneEndpoint; run the node-group loop; when it completes,
advance CREATE_IN_PROGRESS to CREATE_COMPLETE, then UPDATE_IN_PROGRESS to
UPDATE_COMPLETE (two consecutive if statements, as in the source), and
save the cluster. -/
def cu_block (w : World) (c : Cluster) : Except PyErr BlockOut :=
  if c.status = sCREATE_IN_PROGRESS ∨ c.status = sUPDATE_IN_PROGRESS then
    let sm := status_map w.capi.conditions
    if dictGet sm sControlPlaneReady ≠ some sTrue then
      .ok (.ret c [])
    else
      let c1 := { c with api_address := some (api_address_of w.capi.host w.capi.port) }
      match poll_loop w c1.coe_version c1.nodegroups with
      | .error e => .error e
      | .ok (done, ngs, cv, tr) =>
        let c2 := { c1 with nodegroups := ngs, coe_version := cv }
        if done then
          let c3 :=
            if c2.status = sCREATE_IN_PROGRESS then
              { c2 with status := sCREATE_COMPLETE } else c2
          let c4 :=
            if c3.status = sUPDATE_IN_PROGRESS then
              { c3 with status := sUPDATE_COMPLETE } else c3
          .ok (.fall c4 (tr ++ [.saveCluster]))
        else
          .ok (.ret c2 tr)
  else .ok (.fall c [])

/-- the second block of BaseDriver.update_cluster_status (the branch for
DELETE_IN_PROGRESS): return while the top-level Cluster object still
exists; then find-and-delete the application credential, swallowing only
NotFound; delete the cloud-config secret and the four
certificate-authority secrets; set DELETE_COMPLETE and save. -/
def delete_block (w : World) (c : Cluster) : Except PyErr (Cluster × List Event) :=
  if c.status = sDELETE_IN_PROGRESS then
    if w.capi.existing then .ok (c, [])
    else
      match w.credFindDelete with
      | .failed => .error .keystoneError
      | .notFound =>
        .ok ({ c with status := sDELETE_COMPLETE },
          [.deleteCloudConfigSecret, .deleteApiCA, .deleteEtcdCA,
           .deleteFrontProxyCA, .deleteServiceAccountCA, .saveCluster])
      | .found =>
        .ok ({ c with status := sDELETE_COMPLETE },
          [.deleteCredential, .deleteCloudConfigSecret, .deleteApiCA, .deleteEtcdCA,
           .deleteFrontProxyCA, .deleteServiceAccountCA, .saveCluster])
  else .ok (c, [])

/-- BaseDriver.update_cluster_status: the create/update block runs first;
when it does not execute a return statement, control falls through to the
delete block. -/
def update_cluster_status (w : World) (c : Cluster) :
    Except PyErr (Cluster × List Event) :=
  match cu_block w c with
  | .error e => .error e
  | .ok (.ret c1 tr) => .ok (c1, tr)
  | .ok (.fall c1 tr) =>
    match delete_block w c1 with
    | .error e => .error e
    | .ok (c2, tr2) => .ok (c2, tr ++ tr2)

/-! Concrete fixtures used by counterexamples and witnesses. -/

/-- a worker node group mid-update -/
def fxWorkerNg : NodeGroup :=
  { name := "default-worker".toList, role := "worker".toList
    status := sUPDATE_IN_PROGRESS, status_reason := none }

/-- a master node group mid-create -/
def fxMasterNg : NodeGroup :=
  { name := "default-master".toList, role := sMaster
    status := sCREATE_IN_PROGRESS, status_reason := none }

/-- a world whose cluster conditions pass the readiness gate and whose
external objects report success -/
def fxWorldReady : World :=
  { capi :=
      { existing := true
        conditions := [(sControlPlaneReady, sTrue)]
        host := "10.0.0.1".toList
        port := "6443".toList }
    kcp := fun _ =>
      { ready := some true, failureMessage := none, version := "v1.25.3".toList }
    md := fun _ => { phase := some sRunning }
    credFindDelete := .found }

/-- like fxWorldReady, but the control-plane object reports ready false -/
def fxWorldUnreadyMaster : World :=
  { fxWorldReady with
    kcp := fun _ =>
      { ready := some false, failureMessage := none, version := "v1.25.3".toList } }

/-- like fxWorldReady, but the ready field is absent from the
control-plane object status -/
def fxWorldAbsentReady : World :=
  { fxWorldReady with
    kcp := fun _ =>
      { ready := none, failureMessage := none, version := "v1.25.3".toList } }

/-- like fxWorldReady, but the conditions list carries no
ControlPlaneReady entry -/
def fxWorldNotReady : World :=
  { fxWorldReady with capi := { fxWorldReady.capi with conditions := [] } }

/-- a cluster mid-update holding the worker group -/
def fxClusterUpdate : Cluster :=
  { status := sUPDATE_IN_PROGRESS, api_address := none, coe_version := none
    nodegroups := [fxWorkerNg], cluster_template := { network_driver := sCalico } }

/-- a cluster mid-create holding the master group -/
def fxClusterCreate : Cluster :=
  { status := sCREATE_IN_PROGRESS, api_address := none, coe_version := none
    nodegroups := [fxMasterNg], cluster_template := { network_driver := sCalico } }

/-- a cluster mid-delete -/
def fxClusterDelete : Cluster :=
  { status := sDELETE_IN_PROGRESS, api_address := none, coe_version := none
    nodegroups := [fxMasterNg, fxWorkerNg]
    cluster_template := { network_driver := sCalico } }

/-- a delete-mode world where the top-level Cluster object is gone and the
credential is found -/
def fxWorldDeleteGone : World :=
  { fxWorldReady with
    capi := { fxWorldReady.capi with existing := false } }

/-- like fxWorldDeleteGone, but the credential lookup raises NotFound -/
def fxWorldDeleteGoneNotFound : World :=
  { fxWorldDeleteGone with credFindDelete := .notFound }

/-- like fxWorldDeleteGone, but the credential backend fails with an error
other than NotFound -/
def fxWorldDeleteGoneFailed : World :=
  { fxWorldDeleteGone with credFindDelete := .failed }

/-! Helper lemmas shared between claims. -/

/-- a cluster in DELETE_IN_PROGRESS is not handled by the create/update
block, which falls through unchanged -/
theorem cu_block_of_delete (w : World) (c : Cluster)
    (hst : c.status = sDELETE_IN_PROGRESS) :
    cu_block w c = .ok (.fall c []) := by
  have h : ¬ (c.status = sCREATE_IN_PROGRESS ∨ c.status = sUPDATE_IN_PROGRESS) := by
    rw [hst]; decide
  unfold cu_block
  rw [if_neg h]

/-- for a cluster in DELETE_IN_PROGRESS, update_cluster_status is exactly
the delete block -/
theorem update_cluster_status_of_delete (w : World) (c : Cluster)
    (hst : c.status = sDELETE_IN_PROGRESS) :
    update_cluster_status w c = delete_block w c := by
  have hcu := cu_block_of_delete w c hst
  simp only [update_cluster_status, hcu]
  cases h : delete_block w c with
  | error e => rfl
  | ok p =>
    obtain ⟨c2, tr2⟩ := p
    rfl

/-! C1 -/

/-- C1: the create/update path of update_cluster_status compares each
polled node-group status against the literal CREATE_COMPLETE, not against
the action prefix of that group; a cluster in UPDATE_IN_PROGRESS whose
only node group polls to UPDATE_COMPLETE halts the loop and is NOT
advanced to UPDATE_COMPLETE (the cluster is not even saved), contradicting
the claim at this input. -/
theorem update_path_hardcoded_create_complete_gate :
    ∃ c1 tr, update_cluster_status fxWorldReady fxClusterUpdate = .ok (c1, tr) ∧
      c1.nodegroups.map NodeGroup.status = [sUPDATE_COMPLETE] ∧
      c1.status = sUPDATE_IN_PROGRESS ∧
      Event.saveCluster ∉ tr :=
  ⟨_, _, rfl, rfl, rfl, by decide⟩

/-! C2 -/

/-- C2 counterexample: a cluster in CREATE_IN_PROGRESS with one master
node group whose control-plane object reports ready false, while the
top-level conditions carry ControlPlaneReady True: reconciliation DOES set
cluster.api_address (it is assigned before any node group is polled),
refuting the claim as stated; the status is indeed not advanced. -/
theorem api_address_set_despite_unready_master :
    fxClusterCreate.api_address = none ∧
    ∃ c1 tr, update_cluster_status fxWorldUnreadyMaster fxClusterCreate = .ok (c1, tr) ∧
      c1.api_address = some (api_address_of "10.0.0.1".toList "6443".toList) ∧
      c1.status = sCREATE_IN_PROGRESS :=
  ⟨rfl, _, _, rfl, rfl, rfl⟩

/-- C2 amended: whenever the condition map of the top-level Cluster object
does not yield ControlPlaneReady equal to True, one run of
update_cluster_status on a cluster in CREATE_IN_PROGRESS or
UPDATE_IN_PROGRESS returns the cluster record unchanged (api_address not
set, status not advanced) and performs no external effect. -/
theorem reconcile_noop_when_control_plane_not_ready (w : World) (c : Cluster)
    (hst : c.status = sCREATE_IN_PROGRESS ∨ c.status = sUPDATE_IN_PROGRESS)
    (hgate : dictGet (status_map w.capi.conditions) sControlPlaneReady ≠ some sTrue) :
    update_cluster_status w c = .ok (c, []) := by
  unfold update_cluster_status cu_block
  rw [if_pos hst]
  simp only [if_pos hgate]

/-- C2 amended, witness at a concrete input -/
theorem reconcile_noop_when_control_plane_not_ready_witness :
    update_cluster_status fxWorldNotReady fxClusterCreate = .ok (fxClusterCreate, []) :=
  reconcile_noop_when_control_plane_not_ready fxWorldNotReady fxClusterCreate
    (Or.inl rfl) (by decide)

/-! C3 -/

/-- a world whose MachineDeployment status lacks the phase key -/
def fxWorldAbsentPhase : World :=
  { fxWorldReady with md := fun _ => { phase := none } }

/-- a world whose MachineDeployment phase carries an unrecognized value -/
def fxWorldWeirdPhase : World :=
  { fxWorldReady with md := fun _ => { phase := some "Pending".toList } }

/-- C3 counterexample: with the ready field absent from the control-plane
object status, polling the master node group does not surface any error:
the poll succeeds, silently treating the group as not ready and leaving
its status unchanged. -/
theorem absent_ready_field_silently_defaulted :
    ∃ ng1, update_nodegroup_status fxWorldAbsentReady fxMasterNg =
        .ok (ng1, [.saveNodeGroup ng1]) ∧
      ng1.status = fxMasterNg.status :=
  ⟨_, rfl, rfl⟩

/-- C3 amended: only an absent worker-pool phase field surfaces an error
to the caller (the KeyError of the direct dictionary access); an absent
control-plane ready field is silently defaulted to false (the poll
succeeds with the status unchanged and only status_reason refreshed), and
a worker-pool phase outside the recognized set silently leaves the node
group entirely unchanged. -/
theorem malformed_state_behavior :
    (∀ w ng, ng.role ≠ sMaster → (w.md ng.name).phase = none →
      update_nodegroup_status w ng = .error (.keyError sPhase)) ∧
    (∀ w ng, ng.role = sMaster → (w.kcp ng.name).ready = none →
      update_nodegroup_status w ng =
        .ok ({ ng with status_reason := (w.kcp ng.name).failureMessage },
          [.saveNodeGroup { ng with status_reason := (w.kcp ng.name).failureMessage }])) ∧
    (∀ w ng ph, ng.role ≠ sMaster → (w.md ng.name).phase = some ph →
      ph ∉ [sScalingUp, sScalingDown, sRunning, sFailed, sUnknown] →
      update_nodegroup_status w ng = .ok (ng, [.saveNodeGroup ng])) := by
  refine ⟨?_, ?_, ?_⟩
  · intro w ng hrole hph
    simp only [update_nodegroup_status, if_neg hrole, hph]
  · intro w ng hrole hready
    simp only [update_nodegroup_status, if_pos hrole, hready, Option.getD_none,
      Bool.false_eq_true, if_false]
  · intro w ng ph hrole hph hmem
    simp only [List.mem_cons, List.not_mem_nil, or_false] at hmem
    push_neg at hmem
    obtain ⟨h1, h2, h3, h4, h5⟩ := hmem
    simp only [update_nodegroup_status, if_neg hrole, hph, h1, h2, h3, h4, h5,
      or_self, if_false, if_neg]

/-- C3 amended, witness: the three behaviors at concrete inputs -/
theorem malformed_state_behavior_witness :
    update_nodegroup_status fxWorldAbsentPhase fxWorkerNg = .error (.keyError sPhase) ∧
    update_nodegroup_status fxWorldAbsentReady fxMasterNg =
      .ok ({ fxMasterNg with status_reason := none },
        [.saveNodeGroup { fxMasterNg with status_reason := none }]) ∧
    update_nodegroup_status fxWorldWeirdPhase fxWorkerNg =
      .ok (fxWorkerNg, [.saveNodeGroup fxWorkerNg]) :=
  ⟨malformed_state_behavior.1 fxWorldAbsentPhase fxWorkerNg (by decide) rfl,
   malformed_state_behavior.2.1 fxWorldAbsentReady fxMasterNg rfl rfl,
   malformed_state_behavior.2.2 fxWorldWeirdPhase fxWorkerNg "Pending".toList
     (by decide) rfl (by decide)⟩

/-! C4 -/

/-- takeWhile of a not-underscore predicate stops exactly at the first
underscore -/
theorem takeWhile_prefix_append (a rest : Str) (ha : ∀ c ∈ a, c ≠ '_') :
    (a ++ '_' :: rest).takeWhile (fun c => c != '_') = a := by
  induction a with
  | nil => simp [List.takeWhile_cons]
  | cons x xs ih =>
    have hx : x ≠ '_' := ha x (List.mem_cons_self x xs)
    have hxs : ∀ c ∈ xs, c ≠ '_' := fun c hc => ha c (List.mem_cons_of_mem x hc)
    simp [List.takeWhile_cons, hx, ih hxs]

/-- the action of a status of the shape action underscore phase is the
action, whenever the action itself has no underscore -/
theorem actionOf_append (a rest : Str) (ha : ∀ c ∈ a, c ≠ '_') :
    actionOf (a ++ '_' :: rest) = a :=
  takeWhile_prefix_append a rest ha

/-- C4: polling a worker node group whose status has the action-underscore-
phase shape maps the observed phase exactly as ScalingUp and ScalingDown
to action_IN_PROGRESS, Running to action_COMPLETE, Failed and Unknown to
action_FAILED, any other value to the unchanged status; the action prefix
of the result always equals the action prefix of the prior status. -/
theorem worker_phase_mapping (w : World) (ng : NodeGroup) (a p ph : Str)
    (hrole : ng.role ≠ sMaster)
    (hform : ng.status = a ++ '_' :: p)
    (ha : ∀ ch ∈ a, ch ≠ '_')
    (hph : (w.md ng.name).phase = some ph) :
    ∃ ng1, update_nodegroup_status w ng = .ok (ng1, [.saveNodeGroup ng1]) ∧
      ng1.status =
        (if ph = sScalingUp ∨ ph = sScalingDown then a ++ sufIN_PROGRESS
         else if ph = sRunning then a ++ sufCOMPLETE
         else if ph = sFailed ∨ ph = sUnknown then a ++ sufFAILED
         else ng.status) ∧
      actionOf ng1.status = actionOf ng.status := by
  have hact : actionOf ng.status = a := by
    rw [hform]; exact actionOf_append a p ha
  have hIP : actionOf (a ++ sufIN_PROGRESS) = a :=
    actionOf_append a "IN_PROGRESS".toList ha
  have hCO : actionOf (a ++ sufCOMPLETE) = a :=
    actionOf_append a "COMPLETE".toList ha
  have hFA : actionOf (a ++ sufFAILED) = a :=
    actionOf_append a "FAILED".toList ha
  simp only [update_nodegroup_status, if_neg hrole, hph, hact]
  by_cases h1 : ph = sScalingUp ∨ ph = sScalingDown
  · refine ⟨_, rfl, ?_, ?_⟩
    · simp only [if_pos h1]
    · simp only [if_pos h1]
      exact hIP
  · by_cases h2 : ph = sRunning
    · refine ⟨_, rfl, ?_, ?_⟩
      · simp only [if_neg h1, if_pos h2]
      · simp only [if_neg h1, if_pos h2]
        exact hCO
    · by_cases h3 : ph = sFailed ∨ ph = sUnknown
      · refine ⟨_, rfl, ?_, ?_⟩
        · simp only [if_neg h1, if_neg h2, if_pos h3]
        · simp only [if_neg h1, if_neg h2, if_pos h3]
          exact hFA
      · refine ⟨_, rfl, ?_, ?_⟩
        · simp only [if_neg h1, if_neg h2, if_neg h3]
        · simp only [if_neg h1, if_neg h2, if_neg h3]
          exact hact

/-- a worker node group mid-create -/
def fxWorkerNgCreate : NodeGroup :=
  { name := "default-worker".toList, role := "worker".toList
    status := sCREATE_IN_PROGRESS, status_reason := none }

/-- C4 witness: the Running row of the mapping at a concrete input -/
theorem worker_phase_mapping_witness :
    ∃ ng1, update_nodegroup_status fxWorldReady fxWorkerNgCreate =
        .ok (ng1, [.saveNodeGroup ng1]) ∧
      ng1.status =
        (if sRunning = sScalingUp ∨ sRunning = sScalingDown then
          "CREATE".toList ++ sufIN_PROGRESS
         else if sRunning = sRunning then "CREATE".toList ++ sufCOMPLETE
         else if sRunning = sFailed ∨ sRunning = sUnknown then
          "CREATE".toList ++ sufFAILED
         else fxWorkerNgCreate.status) ∧
      actionOf ng1.status = actionOf fxWorkerNgCreate.status :=
  worker_phase_mapping fxWorldReady fxWorkerNgCreate
    "CREATE".toList "IN_PROGRESS".toList sRunning
    (by decide) (by decide) (by decide) rfl

/-! C8 -/

/-- C8: polling a master node group sets its status to action_COMPLETE
exactly when the observed ready field (defaulted to false when absent) is
true, and leaves the status unchanged otherwise; the failure message is
always copied into status_reason; in particular the poll never newly
produces the FAILED form of the action. -/
theorem update_master_eq (w : World) (ng : NodeGroup)
    (hrole : ng.role = sMaster) :
    update_nodegroup_status w ng =
      .ok ({ ng with
              status :=
                if (w.kcp ng.name).ready.getD false then
                  actionOf ng.status ++ sufCOMPLETE
                else ng.status
              status_reason := (w.kcp ng.name).failureMessage },
        [.saveNodeGroup { ng with
              status :=
                if (w.kcp ng.name).ready.getD false then
                  actionOf ng.status ++ sufCOMPLETE
                else ng.status
              status_reason := (w.kcp ng.name).failureMessage }]) := by
  simp only [update_nodegroup_status, if_pos hrole]
  cases (w.kcp ng.name).ready.getD false <;> rfl

theorem master_poll_never_failed (w : World) (ng : NodeGroup)
    (hrole : ng.role = sMaster) :
    ∃ ng1, update_nodegroup_status w ng = .ok (ng1, [.saveNodeGroup ng1]) ∧
      ng1.status =
        (if (w.kcp ng.name).ready.getD false then
          actionOf ng.status ++ sufCOMPLETE
         else ng.status) ∧
      ng1.status_reason = (w.kcp ng.name).failureMessage ∧
      (ng.status ≠ actionOf ng.status ++ sufFAILED →
        ng1.status ≠ actionOf ng.status ++ sufFAILED) := by
  refine ⟨_, update_master_eq w ng hrole, rfl, rfl, ?_⟩
  intro hne hcon
  have hcon2 :
      (if (w.kcp ng.name).ready.getD false then
        actionOf ng.status ++ sufCOMPLETE
       else ng.status) = actionOf ng.status ++ sufFAILED := hcon
  by_cases hb : (w.kcp ng.name).ready.getD false = true
  · rw [if_pos hb] at hcon2
    exact absurd (List.append_cancel_left hcon2) (by decide)
  · rw [if_neg hb] at hcon2
    exact hne hcon2

/-- C8 witness at a concrete input -/
theorem master_poll_never_failed_witness :
    ∃ ng1, update_nodegroup_status fxWorldReady fxMasterNg =
        .ok (ng1, [.saveNodeGroup ng1]) ∧
      ng1.status =
        (if (fxWorldReady.kcp fxMasterNg.name).ready.getD false then
          actionOf fxMasterNg.status ++ sufCOMPLETE
         else fxMasterNg.status) ∧
      ng1.status_reason = (fxWorldReady.kcp fxMasterNg.name).failureMessage ∧
      (fxMasterNg.status ≠ actionOf fxMasterNg.status ++ sufFAILED →
        ng1.status ≠ actionOf fxMasterNg.status ++ sufFAILED) :=
  master_poll_never_failed fxWorldReady fxMasterNg rfl

/-! C5 -/

/-- C5: in delete mode, while the top-level Cluster object still exists the
reconciliation performs no effect at all and leaves the cluster record (in
particular its DELETE_IN_PROGRESS status) unchanged; once the object is
absent and the credential is found, exactly the credential revocation, the
cloud-config secret deletion, the four certificate-authority secret
deletions and the save run, and the status becomes DELETE_COMPLETE. -/
theorem delete_waits_for_external_removal :
    (∀ w c, c.status = sDELETE_IN_PROGRESS → w.capi.existing = true →
      update_cluster_status w c = .ok (c, [])) ∧
    (∀ w c, c.status = sDELETE_IN_PROGRESS → w.capi.existing = false →
      w.credFindDelete = .found →
      update_cluster_status w c =
        .ok ({ c with status := sDELETE_COMPLETE },
          [.deleteCredential, .deleteCloudConfigSecret, .deleteApiCA, .deleteEtcdCA,
           .deleteFrontProxyCA, .deleteServiceAccountCA, .saveCluster])) := by
  constructor
  · intro w c hst hex
    rw [update_cluster_status_of_delete w c hst]
    unfold delete_block
    rw [if_pos hst, hex]
    rfl
  · intro w c hst hex hcred
    rw [update_cluster_status_of_delete w c hst]
    unfold delete_block
    rw [if_pos hst, hex, hcred]
    rfl

/-- C5 witness: both branches at concrete inputs -/
theorem delete_waits_for_external_removal_witness :
    update_cluster_status fxWorldReady fxClusterDelete = .ok (fxClusterDelete, []) ∧
    update_cluster_status fxWorldDeleteGone fxClusterDelete =
      .ok ({ fxClusterDelete with status := sDELETE_COMPLETE },
        [.deleteCredential, .deleteCloudConfigSecret, .deleteApiCA, .deleteEtcdCA,
         .deleteFrontProxyCA, .deleteServiceAccountCA, .saveCluster]) :=
  ⟨delete_waits_for_external_removal.1 fxWorldReady fxClusterDelete rfl rfl,
   delete_waits_for_external_removal.2 fxWorldDeleteGone fxClusterDelete rfl rfl rfl⟩

/-! C6 -/

/-- C6: in delete mode with the top-level Cluster object absent, a
NotFound from the credential find/delete is swallowed: no error is raised,
the five secret deletions still run and the status still reaches
DELETE_COMPLETE; any credential-backend error other than NotFound
propagates to the caller as an error. -/
theorem credential_not_found_swallowed :
    (∀ w c, c.status = sDELETE_IN_PROGRESS → w.capi.existing = false →
      w.credFindDelete = .notFound →
      update_cluster_status w c =
        .ok ({ c with status := sDELETE_COMPLETE },
          [.deleteCloudConfigSecret, .deleteApiCA, .deleteEtcdCA,
           .deleteFrontProxyCA, .deleteServiceAccountCA, .saveCluster])) ∧
    (∀ w c, c.status = sDELETE_IN_PROGRESS → w.capi.existing = false →
      w.credFindDelete = .failed →
      update_cluster_status w c = .error .keystoneError) := by
  constructor
  · intro w c hst hex hcred
    rw [update_cluster_status_of_delete w c hst]
    unfold delete_block
    rw [if_pos hst, hex, hcred]
    rfl
  · intro w c hst hex hcred
    rw [update_cluster_status_of_delete w c hst]
    unfold delete_block
    rw [if_pos hst, hex, hcred]
    rfl

/-- C6 witness: both branches at concrete inputs -/
theorem credential_not_found_swallowed_witness :
    update_cluster_status fxWorldDeleteGoneNotFound fxClusterDelete =
      .ok ({ fxClusterDelete with status := sDELETE_COMPLETE },
        [.deleteCloudConfigSecret, .deleteApiCA, .deleteEtcdCA,
         .deleteFrontProxyCA, .deleteServiceAccountCA, .saveCluster]) ∧
    update_cluster_status fxWorldDeleteGoneFailed fxClusterDelete = .error .keystoneError :=
  ⟨credential_not_found_swallowed.1 fxWorldDeleteGoneNotFound fxClusterDelete rfl rfl rfl,
   credential_not_found_swallowed.2 fxWorldDeleteGoneFailed fxClusterDelete rfl rfl rfl⟩

/-! C9 -/

/-- inserting into the dict and then looking up: the inserted key wins,
every other key is unaffected -/
theorem dictGet_dictInsert (m : List (Str × Str)) (t v k : Str) :
    dictGet (dictInsert m t v) k = if t = k then some v else dictGet m k := by
  induction m with
  | nil =>
    simp only [dictInsert, dictGet]
  | cons hd tl ih =>
    obtain ⟨k0, v0⟩ := hd
    by_cases h0 : k0 = t
    · subst h0
      by_cases hk : k0 = k <;> simp [dictInsert, dictGet, hk]
    · by_cases hk : k0 = k
      · subst hk
        have htk : ¬ t = k0 := fun h => h0 h.symm
        simp [dictInsert, dictGet, h0, htk]
      · simp [dictInsert, dictGet, h0, hk, ih]

/-- lookup in the dict built by folding insertions over the conditions:
the value is the status of the last matching entry, falling back to the
initial dict -/
theorem dictGet_foldl_insert (k : Str) (conds : List (Str × Str)) :
    ∀ m, dictGet (conds.foldl (fun m c => dictInsert m c.1 c.2) m) k =
      match conds.reverse.find? (fun c => decide (c.1 = k)) with
      | some cv => some cv.2
      | none => dictGet m k := by
  induction conds with
  | nil => intro m; rfl
  | cons c cs ih =>
    intro m
    rw [List.foldl_cons, ih (dictInsert m c.1 c.2), List.reverse_cons,
      List.find?_append]
    cases hf : cs.reverse.find? (fun c => decide (c.1 = k)) with
    | some cv => rfl
    | none =>
      rw [Option.none_or, dictGet_dictInsert]
      by_cases hk : c.1 = k <;> simp [List.find?, hk]

/-- the last matching entry determines the dict lookup -/
theorem dictGet_status_map (conds : List (Str × Str)) (k : Str) :
    dictGet (status_map conds) k =
      (conds.reverse.find? fun c => decide (c.1 = k)).map Prod.snd := by
  unfold status_map
  rw [dictGet_foldl_insert k conds []]
  cases hf : conds.reverse.find? (fun c => decide (c.1 = k)) <;> rfl

/-- C9: the condition map built by update_cluster_status is last-wins: for
any conditions list the value looked up for a type is exactly the status
of the last entry of that type in list order (the first match in the
reversed list), so the readiness gate is decided solely by the final
ControlPlaneReady entry. -/
theorem status_map_last_wins (conds : List (Str × Str)) (k : Str) :
    dictGet (status_map conds) k =
      (conds.reverse.find? fun c => decide (c.1 = k)).map Prod.snd ∧
    (dictGet (status_map conds) sControlPlaneReady = some sTrue ↔
      (conds.reverse.find? fun c => decide (c.1 = sControlPlaneReady)).map Prod.snd
        = some sTrue) := by
  refine ⟨dictGet_status_map conds k, ?_⟩
  rw [dictGet_status_map conds sControlPlaneReady]

/-! C7 -/

/-- Bool recognizer for the secret applies of the create path -/
def isSecretApply : Event → Bool
  | .applyCloudConfigSecret => true
  | .applyApiCA => true
  | .applyEtcdCA => true
  | .applyFrontProxyCA => true
  | .applyServiceAccountCA => true
  | _ => false

/-- Bool recognizer for the four certificate-authority secret applies -/
def isCASecretApply : Event → Bool
  | .applyApiCA => true
  | .applyEtcdCA => true
  | .applyFrontProxyCA => true
  | .applyServiceAccountCA => true
  | _ => false

/-- Bool recognizer for the events emitted by node-group provisioning -/
def isNodeGroupProvisionApply : Event → Bool
  | .applyOSMachineTemplate _ => true
  | .applyKubeadmControlPlane _ => true
  | .applyKubeadmConfigTemplate => true
  | .applyMachineDeployment _ => true
  | _ => false

/-- every event of one trace position satisfying p occurs strictly before
every position satisfying q -/
def allBefore (p q : Event → Bool) (t : List Event) : Prop :=
  ∀ i j (hi : i < t.length) (hj : j < t.length),
    p (t.get ⟨i, hi⟩) = true → q (t.get ⟨j, hj⟩) = true → i < j

/-- a concatenation whose right part has no p-event and whose left part
has no q-event puts all p-events before all q-events -/
theorem allBefore_of_split (p q : Event → Bool) (l r : List Event)
    (hr : ∀ e ∈ r, p e = false) (hl : ∀ e ∈ l, q e = false) :
    allBefore p q (l ++ r) := by
  intro i j hi hj hp hq
  rw [List.get_eq_getElem] at hp hq
  rcases Nat.lt_or_ge i l.length with hil | hil
  · rcases Nat.lt_or_ge j l.length with hjl | hjl
    · rw [List.getElem_append_left hjl] at hq
      rw [hl _ (List.getElem_mem hjl)] at hq
      exact absurd hq (by decide)
    · omega
  · rw [List.getElem_append_right hil] at hp
    rw [hr _ (List.getElem_mem (by simp at hi; omega))] at hp
    exact absurd hp (by decide)

/-- appending preserves pointwise properties of list members -/
theorem forall_mem_append2 {P : Event → Prop} {l1 l2 : List Event}
    (h1 : ∀ e ∈ l1, P e) (h2 : ∀ e ∈ l2, P e) : ∀ e ∈ l1 ++ l2, P e := by
  intro e he
  rcases List.mem_append.mp he with he | he
  exacts [h1 e he, h2 e he]

/-- everything emitted by create_nodegroup is a provisioning apply -/
theorem create_nodegroup_provision {e : Event} {ng : NodeGroup}
    (h : e ∈ create_nodegroup ng) : isNodeGroupProvisionApply e = true := by
  unfold create_nodegroup at h
  rcases List.mem_append.mp h with h | h
  · rw [List.mem_singleton] at h
    subst h; rfl
  · by_cases hrole : ng.role = sMaster
    · rw [if_pos hrole, List.mem_singleton] at h
      subst h; rfl
    · rw [if_neg hrole] at h
      simp only [List.mem_cons, List.not_mem_nil, or_false] at h
      rcases h with h | h <;> subst h <;> rfl

/-- everything in the node-group segment of the create trace is a
provisioning apply -/
theorem flatMap_provision {e : Event} {ngs : List NodeGroup}
    (h : e ∈ ngs.flatMap create_nodegroup) : isNodeGroupProvisionApply e = true := by
  rw [List.mem_flatMap] at h
  obtain ⟨ng, _, hng⟩ := h
  exact create_nodegroup_provision hng

/-- a provisioning apply is none of the singleton events of the create
path and is not a secret apply -/
theorem provision_event_classes {e : Event} (h : isNodeGroupProvisionApply e = true) :
    (e == Event.applyNamespace) = false ∧ (e == Event.createCredential) = false ∧
    (e == Event.applyCloudConfigSecret) = false ∧ (e == Event.applyCluster) = false ∧
    isSecretApply e = false ∧ isCASecretApply e = false := by
  cases e <;>
    simp_all [isNodeGroupProvisionApply, isSecretApply, isCASecretApply]

/-- C7: in every create trace the Namespace apply precedes every secret
apply, the credential issue precedes the CloudConfigSecret apply, all four
certificate-authority secret applies precede the top-level Cluster apply,
and every node-group provisioning event precedes the top-level Cluster
apply. -/
theorem create_cluster_ordering (c : Cluster) :
    allBefore (fun e => e == Event.applyNamespace) isSecretApply (create_cluster c) ∧
    allBefore (fun e => e == Event.createCredential)
      (fun e => e == Event.applyCloudConfigSecret) (create_cluster c) ∧
    allBefore isCASecretApply (fun e => e == Event.applyCluster) (create_cluster c) ∧
    allBefore isNodeGroupProvisionApply (fun e => e == Event.applyCluster)
      (create_cluster c) := by
  refine ⟨?_, ?_, ?_, ?_⟩
  · have hT : create_cluster c =
        [Event.applyNamespace] ++
          ([Event.applyCCMConfigMap, Event.applyCCMClusterResourceSet] ++
            ((if c.cluster_template.network_driver = sCalico then
                [Event.applyCalicoConfigMap, Event.applyCalicoClusterResourceSet]
              else []) ++
              ([Event.createCredential, Event.applyCloudConfigSecret, Event.applyApiCA,
                Event.applyEtcdCA, Event.applyFrontProxyCA, Event.applyServiceAccountCA] ++
                (c.nodegroups.flatMap create_nodegroup ++
                  [Event.applyOpenStackCluster, Event.applyCluster])))) := by
      simp [create_cluster, List.append_assoc]
    rw [hT]
    refine allBefore_of_split _ _ _ _ ?_ (by decide)
    refine forall_mem_append2 (by decide) ?_
    refine forall_mem_append2 (by split <;> decide) ?_
    refine forall_mem_append2 (by decide) ?_
    refine forall_mem_append2 ?_ (by decide)
    exact fun e he => (provision_event_classes (flatMap_provision he)).1
  · have hT : create_cluster c =
        ([Event.applyNamespace, Event.applyCCMConfigMap, Event.applyCCMClusterResourceSet] ++
          ((if c.cluster_template.network_driver = sCalico then
              [Event.applyCalicoConfigMap, Event.applyCalicoClusterResourceSet]
            else []) ++
            [Event.createCredential])) ++
          ([Event.applyCloudConfigSecret, Event.applyApiCA, Event.applyEtcdCA,
            Event.applyFrontProxyCA, Event.applyServiceAccountCA] ++
            (c.nodegroups.flatMap create_nodegroup ++
              [Event.applyOpenStackCluster, Event.applyCluster])) := by
      simp [create_cluster, List.append_assoc]
    rw [hT]
    refine allBefore_of_split _ _ _ _ ?_ ?_
    · refine forall_mem_append2 (by decide) ?_
      refine forall_mem_append2 ?_ (by decide)
      exact fun e he => (provision_event_classes (flatMap_provision he)).2.1
    · refine forall_mem_append2 (by decide) ?_
      exact forall_mem_append2 (by split <;> decide) (by decide)
  · have hT : create_cluster c =
        (([Event.applyNamespace, Event.applyCCMConfigMap, Event.applyCCMClusterResourceSet] ++
          ((if c.cluster_template.network_driver = sCalico then
              [Event.applyCalicoConfigMap, Event.applyCalicoClusterResourceSet]
            else []) ++
            [Event.createCredential, Event.applyCloudConfigSecret, Event.applyApiCA,
             Event.applyEtcdCA, Event.applyFrontProxyCA, Event.applyServiceAccountCA])) ++
          (c.nodegroups.flatMap create_nodegroup ++ [Event.applyOpenStackCluster])) ++
          [Event.applyCluster] := by
      simp [create_cluster, List.append_assoc]
    rw [hT]
    refine allBefore_of_split _ _ _ _ (by decide) ?_
    refine forall_mem_append2 ?_ ?_
    · refine forall_mem_append2 (by decide) ?_
      exact forall_mem_append2 (by split <;> decide) (by decide)
    · refine forall_mem_append2 ?_ (by decide)
      exact fun e he => (provision_event_classes (flatMap_provision he)).2.2.2.1
  · have hT : create_cluster c =
        (([Event.applyNamespace, Event.applyCCMConfigMap, Event.applyCCMClusterResourceSet] ++
          ((if c.cluster_template.network_driver = sCalico then
              [Event.applyCalicoConfigMap, Event.applyCalicoClusterResourceSet]
            else []) ++
            [Event.createCredential, Event.applyCloudConfigSecret, Event.applyApiCA,
             Event.applyEtcdCA, Event.applyFrontProxyCA, Event.applyServiceAccountCA])) ++
          (c.nodegroups.flatMap create_nodegroup ++ [Event.applyOpenStackCluster])) ++
          [Event.applyCluster] := by
      simp [create_cluster, List.append_assoc]
    rw [hT]
    refine allBefore_of_split _ _ _ _ (by decide) ?_
    refine forall_mem_append2 ?_ ?_
    · refine forall_mem_append2 (by decide) ?_
      exact forall_mem_append2 (by split <;> decide) (by decide)
    · refine forall_mem_append2 ?_ (by decide)
      exact fun e he => (provision_event_classes (flatMap_provision he)).2.2.2.1

/-! C10 -/

/-- Bool recognizer for every delete effect -/
def isDeleteEvent : Event → Bool
  | .deleteCredential => true
  | .deleteCloudConfigSecret => true
  | .deleteApiCA => true
  | .deleteEtcdCA => true
  | .deleteFrontProxyCA => true
  | .deleteServiceAccountCA => true
  | .deleteCluster => true
  | .deleteOpenStackCluster => true
  | .deleteKubeadmControlPlane _ => true
  | .deleteMachineDeployment _ => true
  | .deleteKubeadmConfigTemplate => true
  | .deleteOSMachineTemplate _ => true
  | .deleteNamespace => true
  | .deleteCCMConfigMap => true
  | .deleteCCMClusterResourceSet => true
  | .deleteCalicoConfigMap => true
  | .deleteCalicoClusterResourceSet => true
  | _ => false

/-- deletions permitted to the cluster teardown path: the top-level
Cluster object, the OpenStackCluster object, and per-node-group
resources -/
def clusterTeardownAllowed : Event → Bool
  | .deleteCluster => true
  | .deleteOpenStackCluster => true
  | .deleteKubeadmControlPlane _ => true
  | .deleteMachineDeployment _ => true
  | .deleteKubeadmConfigTemplate => true
  | .deleteOSMachineTemplate _ => true
  | _ => false

/-- deletions permitted to the delete path of status reconciliation: the
credential, the CloudConfigSecret and the four certificate-authority
secrets -/
def reconDeleteAllowed : Event → Bool
  | .deleteCredential => true
  | .deleteCloudConfigSecret => true
  | .deleteApiCA => true
  | .deleteEtcdCA => true
  | .deleteFrontProxyCA => true
  | .deleteServiceAccountCA => true
  | _ => false

/-- deletions of the shared infrastructure applied during create: the
Namespace, the cloud-controller-manager ConfigMap and ClusterResourceSet,
and the Calico ConfigMap and ClusterResourceSet -/
def sharedInfraDelete : Event → Bool
  | .deleteNamespace => true
  | .deleteCCMConfigMap => true
  | .deleteCCMClusterResourceSet => true
  | .deleteCalicoConfigMap => true
  | .deleteCalicoClusterResourceSet => true
  | _ => false

/-- C10: cluster teardown deletes only the top-level Cluster object, the
OpenStackCluster object and the per-node-group resources, and the delete
path of status reconciliation deletes only the credential, the
CloudConfigSecret and the four certificate-authority secrets; in
neither path is the Namespace, the cloud-controller-manager ConfigMap or
ClusterResourceSet, or the Calico ConfigMap or ClusterResourceSet ever
deleted. -/
theorem delete_paths_frame (w : World) (c c2 : Cluster) (tr : List Event)
    (hst : c.status = sDELETE_IN_PROGRESS)
    (h : update_cluster_status w c = .ok (c2, tr)) :
    (∀ e ∈ delete_cluster c,
      clusterTeardownAllowed e = true ∧ sharedInfraDelete e = false) ∧
    (∀ e ∈ tr, isDeleteEvent e = true →
      reconDeleteAllowed e = true ∧ sharedInfraDelete e = false) := by
  constructor
  · intro e he
    unfold delete_cluster at he
    rcases List.mem_append.mp he with he | he
    · simp only [List.mem_cons, List.not_mem_nil, or_false] at he
      rcases he with rfl | rfl <;> exact ⟨rfl, rfl⟩
    · rw [List.mem_flatMap] at he
      obtain ⟨ng, _, hng⟩ := he
      unfold delete_nodegroup at hng
      rcases List.mem_append.mp hng with hng | hng
      · by_cases hrole : ng.role = sMaster
        · rw [if_pos hrole, List.mem_singleton] at hng
          subst hng; exact ⟨rfl, rfl⟩
        · rw [if_neg hrole] at hng
          simp only [List.mem_cons, List.not_mem_nil, or_false] at hng
          rcases hng with rfl | rfl <;> exact ⟨rfl, rfl⟩
      · rw [List.mem_singleton] at hng
        subst hng; exact ⟨rfl, rfl⟩
  · rw [update_cluster_status_of_delete w c hst] at h
    unfold delete_block at h
    rw [if_pos hst] at h
    cases hex : w.capi.existing
    case true =>
      rw [hex] at h
      simp at h
      obtain ⟨-, htr⟩ := h
      subst htr
      intro e he
      simp at he
    case false =>
      rw [hex] at h
      cases hcred : w.credFindDelete <;> rw [hcred] at h <;> simp at h
      · obtain ⟨-, htr⟩ := h
        subst htr
        decide
      · obtain ⟨-, htr⟩ := h
        subst htr
        decide

/-- C10 witness: both frame properties at a concrete delete run -/
theorem delete_paths_frame_witness :
    (∀ e ∈ delete_cluster fxClusterDelete,
      clusterTeardownAllowed e = true ∧ sharedInfraDelete e = false) ∧
    (∀ e ∈ [Event.deleteCredential, Event.deleteCloudConfigSecret, Event.deleteApiCA,
        Event.deleteEtcdCA, Event.deleteFrontProxyCA, Event.deleteServiceAccountCA,
        Event.saveCluster],
      isDeleteEvent e = true →
        reconDeleteAllowed e = true ∧ sharedInfraDelete e = false) :=
  delete_paths_frame fxWorldDeleteGone fxClusterDelete
    { fxClusterDelete with status := sDELETE_COMPLETE }
    [Event.deleteCredential, Event.deleteCloudConfigSecret, Event.deleteApiCA,
     Event.deleteEtcdCA, Event.deleteFrontProxyCA, Event.deleteServiceAccountCA,
     Event.saveCluster]
    rfl rfl

end MagnumClusterApi
